import Mathlib

/-!
Verification of the packaging-quiz harness (`quiz.py`).

The Python source is shallowly embedded: the external effects of
`run_test_case` (filesystem copy, entry-file existence, subprocess
behaviour) are supplied through an explicit environment record, and each
method becomes a pure Lean function over that record.  Result dictionaries
become a structure whose optional keys are `Option` fields.
-/

namespace PackagingQuiz

/-- Python substring test `pat in s`, on the underlying character lists. -/
def strIn (pat s : String) : Bool :=
  decide (pat.toList <:+: s.toList)

/-- Python `str.lower()`, modelled as the ASCII case map over the character
list (all texts the quiz inspects are ASCII). -/
def strLower (s : String) : String :=
  ⟨s.data.map Char.toLower⟩

/-- Python `s.startswith(pre)`, on the underlying character lists. -/
def strStarts (s pre : String) : Bool :=
  decide (pre.toList <+: s.toList)

/-- An execution-result record, as produced by `run_test_case`.
Keys that the Python dict may omit (`returncode`, `error`) are `Option`
fields; `result.get(key, default)` on the others reads the field. -/
structure ExecResult where
  success : Bool
  returncode : Option Int := none
  output : String := ""
  stderr : String := ""
  error : Option String := none
deriving Repr, DecidableEq

/-- Embedding of `PackagingQuiz.check_prediction` (quiz.py lines 203-241):
an `if`/`elif` chain on the prediction token, each branch an independent
substring test over the lower-cased stderr and harness-error texts. -/
def check_prediction (prediction : String) (result : ExecResult) : Bool :=
  if prediction == "skip" then
    false
  else
    let actual_success := result.success
    let stderr := strLower result.stderr
    let error := strLower (result.error.getD "")
    if prediction == "success" then
      actual_success
    else if prediction == "importerror" then
      !actual_success && (strIn "importerror" stderr || strIn "importerror" error)
    else if prediction == "modulenotfounderror" then
      !actual_success && (strIn "modulenotfounderror" stderr || strIn "no module named" stderr)
    else if prediction == "attributeerror" then
      !actual_success && (strIn "attributeerror" stderr || strIn "attributeerror" error)
    else if prediction == "syntaxerror" then
      !actual_success && (strIn "syntaxerror" stderr || strIn "syntaxerror" error)
    else if prediction == "other" then
      !actual_success &&
        !(["importerror", "modulenotfounderror", "attributeerror", "syntaxerror"].any
          (fun err => strIn err stderr))
    else
      false

/-- Outcome of the `subprocess.run` call, as a function of the wall-clock
timeout passed to it: the child completes with an exit status and captured
texts, raises `TimeoutExpired`, or raises some other exception. -/
inductive SpawnOutcome where
  | completed (returncode : Int) (stdout stderr : String)
  | timedOut
  | raised (msg : String)
deriving Repr, DecidableEq

/-- External behaviour `run_test_case` interacts with for one fixture:
whether `shutil.copytree` raises (and the exception text), which of the
candidate entry files exist in the copied tree, and what `subprocess.run`
does when invoked with a given timeout. -/
structure RunEnv where
  copyRaises : Option String
  mainExists : Bool
  runExists : Bool
  testExists : Bool
  spawn : Nat → SpawnOutcome

/-- The wall-clock timeout in seconds passed to `subprocess.run`
(quiz.py line 139). -/
def subprocess_timeout : Nat := 10

/-- Embedding of `PackagingQuiz.run_test_case` (quiz.py lines 105-162).
`Except.error` models an exception escaping to the caller; `Except.ok`
carries the returned result dict together with a flag recording whether a
child process was spawned.  `shutil.copytree` (line 113) sits outside the
`try` block that starts at line 133, so an exception raised by the copy
escapes. -/
def run_test_case (env : RunEnv) : Except String (ExecResult × Bool) :=
  match env.copyRaises with
  | some exc => Except.error exc
  | none =>
    let main_file : Option String :=
      if env.mainExists then some "main.py"
      else if env.runExists then some "run.py"
      else if env.testExists then some "test.py"
      else none
    match main_file with
    | none =>
        Except.ok ({ success := false,
                     error := some "No main execution file found (main.py, run.py, or test.py)",
                     output := "", stderr := "" }, false)
    | some _ =>
        match env.spawn subprocess_timeout with
        | SpawnOutcome.completed rc out err =>
            Except.ok ({ success := rc == 0, returncode := some rc,
                         output := out, stderr := err }, true)
        | SpawnOutcome.timedOut =>
            Except.ok ({ success := false,
                         error := some "Test timed out (10 seconds)",
                         output := "", stderr := "" }, true)
        | SpawnOutcome.raised msg =>
            Except.ok ({ success := false,
                         error := some ("Failed to run test: " ++ msg),
                         output := "", stderr := "" }, true)

/-- One entry of `test_cases_dir.iterdir()`: its name and whether it is a
directory. -/
structure DirEntry where
  name : String
  isDir : Bool
deriving Repr, DecidableEq

/-- Filesystem view consumed by `get_test_cases`: whether the configured
root exists, and its directory entries. -/
structure FsEnv where
  rootExists : Bool
  entries : List DirEntry
deriving Repr, DecidableEq

/-- The lexicographic-by-code-point order Python uses to compare the
listed paths, read off the character lists of the names (every listed path
shares the root as prefix, so path order is name order). -/
def nameLe (a b : String) : Prop :=
  a.data ≤ b.data

instance : DecidableRel nameLe := fun a b =>
  inferInstanceAs (Decidable (a.data ≤ b.data))

/-- Embedding of `PackagingQuiz.get_test_cases` (quiz.py lines 24-35).
Python's stable `sorted` is modelled by the stable `List.insertionSort`. -/
def get_test_cases (env : FsEnv) : List String :=
  if !env.rootExists then
    []
  else
    let test_cases :=
      (env.entries.filter (fun d => d.isDir && !(strStarts d.name "."))).map DirEntry.name
    test_cases.insertionSort nameLe

/-- The tiered final message chosen by `display_final_score`. -/
inductive FinalMessage where
  | excellent
  | good
  | notBad
  | keepPracticing
  | noQuestions
deriving Repr, DecidableEq

/-- Embedding of `PackagingQuiz.display_final_score` (quiz.py lines
323-346), abstracted to the message tier it prints; the Python float
percentage is modelled as a rational. -/
def display_final_score (score total_questions : Nat) : FinalMessage :=
  if total_questions > 0 then
    let percentage : ℚ := ((score : ℚ) / (total_questions : ℚ)) * 100
    if percentage ≥ 90 then FinalMessage.excellent
    else if percentage ≥ 70 then FinalMessage.good
    else if percentage ≥ 50 then FinalMessage.notBad
    else FinalMessage.keepPracticing
  else
    FinalMessage.noQuestions

/-- The score counters initialised in `PackagingQuiz.__init__`
(quiz.py lines 19-22). -/
structure QuizState where
  score : Nat
  total_questions : Nat
deriving Repr, DecidableEq

/-- The state `__init__` produces: both counters zero. -/
def initQuiz : QuizState := { score := 0, total_questions := 0 }

/-- One round's score update from the quiz loop (quiz.py lines 310-315):
`correct = check_prediction(prediction, result)`, and the counters move
only when the prediction is not "skip". -/
def quiz_round (s : QuizState) (prediction : String) (result : ExecResult) : QuizState :=
  let correct := check_prediction prediction result
  if prediction != "skip" then
    { score := if correct then s.score + 1 else s.score,
      total_questions := s.total_questions + 1 }
  else
    s

/-- Cumulative effect of the quiz loop on the score state: one
`quiz_round` per fixture, starting from the freshly initialised state. -/
def run_rounds (rounds : List (String × ExecResult)) : QuizState :=
  rounds.foldl (fun s pr => quiz_round s pr.1 pr.2) initQuiz

/-! Unfolding lemmas for `check_prediction` at each concrete token. -/

theorem check_prediction_success (r : ExecResult) :
    check_prediction "success" r = r.success := rfl

theorem check_prediction_importerror (r : ExecResult) :
    check_prediction "importerror" r =
      (!r.success && (strIn "importerror" (strLower r.stderr) ||
                      strIn "importerror" (strLower (r.error.getD "")))) := rfl

theorem check_prediction_modulenotfound (r : ExecResult) :
    check_prediction "modulenotfounderror" r =
      (!r.success && (strIn "modulenotfounderror" (strLower r.stderr) ||
                      strIn "no module named" (strLower r.stderr))) := rfl

theorem check_prediction_attributeerror (r : ExecResult) :
    check_prediction "attributeerror" r =
      (!r.success && (strIn "attributeerror" (strLower r.stderr) ||
                      strIn "attributeerror" (strLower (r.error.getD "")))) := rfl

theorem check_prediction_syntax_error (r : ExecResult) :
    check_prediction "syntaxerror" r =
      (!r.success && (strIn "syntaxerror" (strLower r.stderr) ||
                      strIn "syntaxerror" (strLower (r.error.getD "")))) := rfl

theorem check_prediction_other (r : ExecResult) :
    check_prediction "other" r =
      (!r.success &&
        !(strIn "importerror" (strLower r.stderr) ||
          (strIn "modulenotfounderror" (strLower r.stderr) ||
           (strIn "attributeerror" (strLower r.stderr) ||
            (strIn "syntaxerror" (strLower r.stderr) || false))))) := rfl

/-- Claim C8: the "skip" prediction never matches: for every execution
result, whatever its success flag, stderr, or error fields,
`check_prediction "skip" result` is false. -/
theorem skip_never_matches (result : ExecResult) :
    check_prediction "skip" result = false := rfl

/-- Claim C1 fails on the code: for a failed result whose stderr contains
both "importerror" and the module-not-found marker "no module named"
(exactly the classic message "ImportError: no module named foo"), the
prediction "importerror" still matches, because `check_prediction` tests
each prediction's own substrings independently, with no priority for
module-not-found over import-error. -/
theorem importerror_counterexample :
    (ExecResult.mk false none "" "ImportError: no module named foo" none).success = false ∧
    strIn "no module named"
      (strLower (ExecResult.mk false none "" "ImportError: no module named foo" none).stderr) = true ∧
    check_prediction "importerror"
      (ExecResult.mk false none "" "ImportError: no module named foo" none) = true := by
  decide

/-- Claim C1 (amended): for a failed result whose lower-cased stderr
contains a module-not-found marker, `check_prediction
"modulenotfounderror"` is true; and `check_prediction "importerror"`
equals the test for "importerror" occurring in the lower-cased stderr or
harness error text — the module-not-found marker does not suppress it
(there is no detection priority in the code). -/
theorem modulenotfound_marker_matching (result : ExecResult)
    (hs : result.success = false)
    (hm : strIn "modulenotfounderror" (strLower result.stderr) = true ∨
          strIn "no module named" (strLower result.stderr) = true) :
    check_prediction "modulenotfounderror" result = true ∧
    check_prediction "importerror" result =
      (strIn "importerror" (strLower result.stderr) ||
       strIn "importerror" (strLower (result.error.getD ""))) := by
  constructor
  · rw [check_prediction_modulenotfound, hs]
    rcases hm with h | h <;> simp [h]
  · rw [check_prediction_importerror, hs]
    simp

/-- Witness for the amended claim C1 at the classic module-not-found
message. -/
theorem modulenotfound_marker_matching_witness :
    check_prediction "modulenotfounderror"
      (ExecResult.mk false none "" "ModuleNotFoundError: No module named bar" none) = true :=
  (modulenotfound_marker_matching
      (ExecResult.mk false none "" "ModuleNotFoundError: No module named bar" none)
      rfl (Or.inr (by decide))).1

/-- Claim C3 fails on the code: a failed result whose harness error text
contains "no module named" but whose stderr is empty does NOT match the
"modulenotfounderror" prediction (that branch reads only stderr), while
the "other" prediction DOES match (its marker scan also reads only
stderr). -/
theorem error_text_counterexample :
    check_prediction "modulenotfounderror"
      (ExecResult.mk false none "" "" (some "no module named foo")) = false ∧
    check_prediction "other"
      (ExecResult.mk false none "" "" (some "no module named foo")) = true := by
  decide

/-- Claim C3 (amended): for failed results, the predictions
"importerror", "attributeerror" and "syntaxerror" test their marker
against both the lower-cased stderr and the lower-cased harness error
text, but "modulenotfounderror" tests its two markers against the
lower-cased stderr only, and "other" matches iff none of the four marker
substrings occur in the lower-cased stderr (the harness error text is not
consulted by those two branches). -/
theorem marker_text_sources (result : ExecResult) (hs : result.success = false) :
    check_prediction "importerror" result =
      (strIn "importerror" (strLower result.stderr) ||
       strIn "importerror" (strLower (result.error.getD ""))) ∧
    check_prediction "attributeerror" result =
      (strIn "attributeerror" (strLower result.stderr) ||
       strIn "attributeerror" (strLower (result.error.getD ""))) ∧
    check_prediction "syntaxerror" result =
      (strIn "syntaxerror" (strLower result.stderr) ||
       strIn "syntaxerror" (strLower (result.error.getD ""))) ∧
    check_prediction "modulenotfounderror" result =
      (strIn "modulenotfounderror" (strLower result.stderr) ||
       strIn "no module named" (strLower result.stderr)) ∧
    check_prediction "other" result =
      !(strIn "importerror" (strLower result.stderr) ||
        strIn "modulenotfounderror" (strLower result.stderr) ||
        strIn "attributeerror" (strLower result.stderr) ||
        strIn "syntaxerror" (strLower result.stderr)) := by
  refine ⟨?_, ?_, ?_, ?_, ?_⟩
  · rw [check_prediction_importerror, hs]; simp
  · rw [check_prediction_attributeerror, hs]; simp
  · rw [check_prediction_syntax_error, hs]; simp
  · rw [check_prediction_modulenotfound, hs]; simp
  · rw [check_prediction_other, hs]; simp [Bool.and_assoc]

/-- Witness for the amended claim C3: a harness-error-only marker makes
"importerror" match (its branch reads the error text). -/
theorem marker_text_sources_witness :
    check_prediction "importerror"
      (ExecResult.mk false none "" "" (some "ImportError: x")) = true := by
  have h := marker_text_sources (ExecResult.mk false none "" "" (some "ImportError: x")) rfl
  rw [h.1]
  decide

/-- Whether some entry-file candidate exists in the copied tree. -/
def entryExists (env : RunEnv) : Bool :=
  env.mainExists || env.runExists || env.testExists

/-- Claim C2 fails on the code: `shutil.copytree` (quiz.py line 113) sits
outside the `try` block that starts at line 133, so an exception raised
while copying the fixture tree — e.g. a permission failure — propagates to
`run_test_case`'s caller instead of being converted into a result value. -/
theorem copy_failure_escapes_counterexample :
    ¬ ∀ env : RunEnv, ∃ r, run_test_case env = Except.ok r := by
  intro h
  obtain ⟨r, hr⟩ :=
    h ⟨some "permission denied", true, false, false, fun _ => SpawnOutcome.timedOut⟩
  simp [run_test_case] at hr

/-- Claim C2 (amended): once the fixture copy has succeeded,
`run_test_case` never raises — in particular a generic exception from
spawning or running the child is caught and converted into a returned
harness error result with success=false and a human-readable description.
An exception raised while copying, by contrast, escapes. -/
theorem spawn_errors_converted (env : RunEnv) (hcopy : env.copyRaises = none) :
    (∃ r, run_test_case env = Except.ok r) ∧
    (∀ msg, env.spawn subprocess_timeout = SpawnOutcome.raised msg →
      entryExists env = true →
      run_test_case env =
        Except.ok ({ success := false,
                     error := some ("Failed to run test: " ++ msg),
                     output := "", stderr := "" }, true)) := by
  constructor
  · cases hm : env.mainExists <;> cases hrn : env.runExists <;> cases ht : env.testExists <;>
      rcases hsp : env.spawn subprocess_timeout with _ | _ | _ <;>
        simp [run_test_case, hcopy, hm, hrn, ht, hsp]
  · intro msg hmsg hex
    cases hm : env.mainExists <;> cases hrn : env.runExists <;> cases ht : env.testExists <;>
      simp_all [run_test_case, entryExists]

/-- Witness for the amended claim C2: a spawn failure is converted into a
returned harness error result. -/
theorem spawn_errors_converted_witness :
    run_test_case ⟨none, true, false, false, fun _ => SpawnOutcome.raised "oserror"⟩ =
      Except.ok ({ success := false, error := some "Failed to run test: oserror",
                   output := "", stderr := "" }, true) :=
  (spawn_errors_converted
      ⟨none, true, false, false, fun _ => SpawnOutcome.raised "oserror"⟩ rfl).2
    "oserror" rfl rfl

/-- Claim C4: when the copy succeeds but none of the three entry-file
candidates (main.py, run.py, test.py, checked in that order) exists in the
copied root, `run_test_case` returns the harness error result —
success=false, a descriptive message, empty output and stderr, no exit
code — with the spawned flag false: no child process is started. -/
theorem no_entry_file_short_circuits (env : RunEnv) (hcopy : env.copyRaises = none)
    (hm : env.mainExists = false) (hrn : env.runExists = false)
    (ht : env.testExists = false) :
    run_test_case env =
      Except.ok ({ success := false,
                   error := some "No main execution file found (main.py, run.py, or test.py)",
                   output := "", stderr := "", returncode := none }, false) := by
  simp [run_test_case, hcopy, hm, hrn, ht]

/-- Witness for claim C4 at a concrete fixture with no entry file. -/
theorem no_entry_file_short_circuits_witness :
    run_test_case ⟨none, false, false, false, fun _ => SpawnOutcome.completed 0 "" ""⟩ =
      Except.ok ({ success := false,
                   error := some "No main execution file found (main.py, run.py, or test.py)",
                   output := "", stderr := "", returncode := none }, false) :=
  no_entry_file_short_circuits
    ⟨none, false, false, false, fun _ => SpawnOutcome.completed 0 "" ""⟩ rfl rfl rfl rfl

/-- Claim C5: `run_test_case` passes the fixed 10-second wall-clock
timeout to `subprocess.run`; when it expires the returned harness error
has success=false and the distinguishing "timed out" description; and the
result record carries an exit code exactly when the child ran to
completion — the field is absent on timeout and on spawn failure. -/
theorem timeout_and_returncode (env : RunEnv) (hcopy : env.copyRaises = none)
    (hex : entryExists env = true) :
    subprocess_timeout = 10 ∧
    (env.spawn subprocess_timeout = SpawnOutcome.timedOut →
      run_test_case env =
        Except.ok ({ success := false, error := some "Test timed out (10 seconds)",
                     output := "", stderr := "", returncode := none }, true)) ∧
    (∀ res spawned, run_test_case env = Except.ok (res, spawned) →
      (res.returncode.isSome = true ↔
        ∃ rc out err, env.spawn subprocess_timeout = SpawnOutcome.completed rc out err)) := by
  refine ⟨rfl, ?_, ?_⟩
  · intro hsp
    cases hm : env.mainExists <;> cases hrn : env.runExists <;> cases ht : env.testExists <;>
      simp_all [run_test_case, entryExists]
  · intro res spawned hres
    rcases hsp : env.spawn subprocess_timeout with ⟨rc, out, err⟩ | _ | msg <;>
      cases hm : env.mainExists <;> cases hrn : env.runExists <;> cases ht : env.testExists <;>
        simp_all [run_test_case, entryExists] <;>
          simp [← hres.1]

/-- Witness for claim C5 at a concrete fixture whose child times out. -/
theorem timeout_and_returncode_witness :
    run_test_case ⟨none, true, false, false, fun _ => SpawnOutcome.timedOut⟩ =
      Except.ok ({ success := false, error := some "Test timed out (10 seconds)",
                   output := "", stderr := "", returncode := none }, true) :=
  ((timeout_and_returncode
      ⟨none, true, false, false, fun _ => SpawnOutcome.timedOut⟩ rfl rfl).2.1) rfl

/-- Claim C6: when the child process runs to completion, the result's
success flag is true exactly when the exit status is zero, a non-zero exit
carries no harness-level error description, and the captured stderr text
is preserved unchanged in the result. -/
theorem completed_success_iff (env : RunEnv) (hcopy : env.copyRaises = none)
    (hex : entryExists env = true) (rc : Int) (out err : String)
    (hsp : env.spawn subprocess_timeout = SpawnOutcome.completed rc out err) :
    ∃ res : ExecResult, run_test_case env = Except.ok (res, true) ∧
      (res.success = true ↔ rc = 0) ∧
      res.error = none ∧ res.stderr = err ∧ res.output = out ∧
      res.returncode = some rc := by
  refine ⟨⟨rc == 0, some rc, out, err, none⟩, ?_, by simp, rfl, rfl, rfl, rfl⟩
  cases hm : env.mainExists <;> cases hrn : env.runExists <;> cases ht : env.testExists <;>
    simp_all [run_test_case, entryExists]

/-- Witness for claim C6 at a concrete fixture whose child exits with
status 1 and stderr text. -/
theorem completed_success_iff_witness :
    ∃ res : ExecResult,
      run_test_case
          ⟨none, true, false, false, fun _ => SpawnOutcome.completed 1 "out" "boom"⟩ =
        Except.ok (res, true) ∧
      (res.success = true ↔ (1 : Int) = 0) ∧
      res.error = none ∧ res.stderr = "boom" ∧ res.output = "out" ∧
      res.returncode = some 1 :=
  completed_success_iff
    ⟨none, true, false, false, fun _ => SpawnOutcome.completed 1 "out" "boom"⟩
    rfl rfl 1 "out" "boom" rfl

instance : IsTotal String nameLe :=
  ⟨fun a b => le_total a.data b.data⟩

instance : IsTrans String nameLe :=
  ⟨fun _ _ _ hab hbc => le_trans (α := List Char) hab hbc⟩

/-- `nameLe` is exactly the library order on strings. -/
theorem nameLe_iff_le (a b : String) : nameLe a b ↔ a ≤ b :=
  String.le_iff_toList_le.symm

/-- Claim C7: `get_test_cases` returns exactly the directory entries
directly under the configured root whose names do not begin with ".",
sorted by name ascending; a missing root yields the empty list rather
than an error; and two calls over an unchanged root agree. -/
theorem test_case_listing (env : FsEnv) :
    (env.rootExists = false → get_test_cases env = []) ∧
    (∀ x, x ∈ get_test_cases env ↔
      env.rootExists = true ∧
        ∃ e ∈ env.entries, e.isDir = true ∧ strStarts e.name "." = false ∧ e.name = x) ∧
    (get_test_cases env).Sorted (· ≤ ·) ∧
    get_test_cases env = get_test_cases env := by
  refine ⟨?_, ?_, ?_, rfl⟩
  · intro h
    simp [get_test_cases, h]
  · intro x
    cases h : env.rootExists with
    | false => simp [get_test_cases, h]
    | true =>
      simp only [get_test_cases, h, Bool.not_true, Bool.false_eq_true, if_false,
        List.mem_insertionSort, List.mem_map, List.mem_filter, Bool.and_eq_true,
        Bool.not_eq_true']
      constructor
      · rintro ⟨e, ⟨he, hd, hh⟩, hn⟩
        exact ⟨by simp [h], e, he, hd, hh, hn⟩
      · rintro ⟨-, e, he, hd, hh, hn⟩
        exact ⟨e, ⟨he, hd, hh⟩, hn⟩
  · cases h : env.rootExists with
    | false => simp [get_test_cases, h]
    | true =>
      have hs := List.sorted_insertionSort nameLe
        ((env.entries.filter (fun d => d.isDir && !(strStarts d.name "."))).map DirEntry.name)
      have : get_test_cases env =
          ((env.entries.filter (fun d => d.isDir && !(strStarts d.name "."))).map
            DirEntry.name).insertionSort nameLe := by
        simp [get_test_cases, h]
      rw [this]
      exact hs.imp (fun hab => (nameLe_iff_le _ _).mp hab)

/-- Witness for claim C7: a missing root directory yields the empty
list. -/
theorem test_case_listing_witness :
    get_test_cases ⟨false, [⟨"b", true⟩]⟩ = [] :=
  (test_case_listing ⟨false, [⟨"b", true⟩]⟩).1 rfl

/-- Claim C9: the percentage is computed only under the positive guard,
so the division `score / total_questions` is never taken with a zero
denominator; a zero total selects the "no questions answered" message, and
otherwise the message tier follows the thresholds 90, 70, 50. -/
theorem final_score_tiers (score total_questions : Nat) :
    (total_questions = 0 →
      display_final_score score total_questions = FinalMessage.noQuestions) ∧
    (0 < total_questions →
      display_final_score score total_questions =
        (if (90 : ℚ) ≤ (score : ℚ) / (total_questions : ℚ) * 100 then FinalMessage.excellent
         else if (70 : ℚ) ≤ (score : ℚ) / (total_questions : ℚ) * 100 then FinalMessage.good
         else if (50 : ℚ) ≤ (score : ℚ) / (total_questions : ℚ) * 100 then FinalMessage.notBad
         else FinalMessage.keepPracticing)) := by
  constructor
  · intro h
    simp [display_final_score, h]
  · intro h
    simp [display_final_score, h]

/-- Witness for claim C9: zero questions answered hits the dedicated
branch, and 9 of 10 correct reaches the top tier. -/
theorem final_score_tiers_witness :
    display_final_score 0 0 = FinalMessage.noQuestions ∧
    display_final_score 9 10 = FinalMessage.excellent := by
  constructor
  · exact (final_score_tiers 0 0).1 rfl
  · have h := (final_score_tiers 9 10).2 (by norm_num)
    rw [h]
    norm_num

/-- A round never lets the correct count overtake the asked count. -/
theorem quiz_round_le (s : QuizState) (p : String) (r : ExecResult)
    (h : s.score ≤ s.total_questions) :
    (quiz_round s p r).score ≤ (quiz_round s p r).total_questions := by
  unfold quiz_round
  cases hp : p != "skip"
  · simpa [hp] using h
  · cases hc : check_prediction p r <;> simp [hp, hc] <;> omega

/-- Claim C10: invariant of the quiz loop on the score state.  The
counters start at zero; a skipped round leaves the state unchanged; a
non-skipped round adds one to the asked count and adds one to the score
exactly when the prediction matched; both counters are monotone, the
score never exceeds the asked count, and the invariant holds after any
sequence of rounds from the initial state. -/
theorem score_state_invariant :
    initQuiz.score = 0 ∧ initQuiz.total_questions = 0 ∧
    (∀ (s : QuizState) (p : String) (r : ExecResult), s.score ≤ s.total_questions →
      (quiz_round s p r).score ≤ (quiz_round s p r).total_questions) ∧
    (∀ (s : QuizState) (r : ExecResult), quiz_round s "skip" r = s) ∧
    (∀ (s : QuizState) (p : String) (r : ExecResult), p ≠ "skip" →
      (quiz_round s p r).total_questions = s.total_questions + 1 ∧
      (quiz_round s p r).score =
        (if check_prediction p r then s.score + 1 else s.score)) ∧
    (∀ (s : QuizState) (p : String) (r : ExecResult),
      s.score ≤ (quiz_round s p r).score ∧
      s.total_questions ≤ (quiz_round s p r).total_questions) ∧
    (∀ rounds, (run_rounds rounds).score ≤ (run_rounds rounds).total_questions) := by
  refine ⟨rfl, rfl, quiz_round_le, fun s r => rfl, ?_, ?_, ?_⟩
  · intro s p r hp
    have hp' : (p != "skip") = true := by
      simpa using hp
    constructor <;> simp [quiz_round, hp']
  · intro s p r
    unfold quiz_round
    cases hp : p != "skip"
    · simp [hp]
    · cases hc : check_prediction p r <;> simp [hp, hc]
  · intro rounds
    have aux : ∀ (l : List (String × ExecResult)) (s : QuizState),
        s.score ≤ s.total_questions →
        (l.foldl (fun t pr => quiz_round t pr.1 pr.2) s).score ≤
          (l.foldl (fun t pr => quiz_round t pr.1 pr.2) s).total_questions := by
      intro l
      induction l with
      | nil => intro s h; exact h
      | cons hd tl ih =>
        intro s h
        exact ih _ (quiz_round_le s hd.1 hd.2 h)
    exact aux rounds initQuiz (Nat.le_refl 0)

/-- Witness for claim C10: a concrete non-skipped correct round moves
both counters from zero to one. -/
theorem score_state_invariant_witness :
    (quiz_round ⟨0, 0⟩ "success" { success := true }).total_questions = 0 + 1 ∧
    (quiz_round ⟨0, 0⟩ "success" { success := true }).score =
      (if check_prediction "success" { success := true } then 0 + 1 else 0) := by
  have h := score_state_invariant.2.2.2.2.1 ⟨0, 0⟩ "success" { success := true }
    (by decide)
  exact h

end PackagingQuiz
